import Mathlib

/-!
Verification of the incident-creation workflow of the incident-bot
repository.  Python strings are modelled as `List Char`, stateful
platform calls as explicit effect records, and Python exceptions as
`Except` values.  Each definition mirrors one function of the source
under `src/backend`.
-/

namespace IncidentBot

/-! ## Channel name formatting (incident.py, `Incident.__format_channel_name`) -/

/-- Decimal digit character, as produced by Python `str` on 0..9. -/
def digitChar (n : Nat) : Char := Char.ofNat (48 + n)

/-- Fuel-based decimal rendering of a natural number; mirrors Python
`str(n)` for non-negative `n` (no padding, `str(0) = "0"`).  Fuel
`n + 1` always suffices because the argument shrinks by a factor of
ten each step. -/
def natDigitsAux : Nat → Nat → List Char
  | 0, _ => []
  | fuel + 1, n =>
    if n < 10 then [digitChar n]
    else natDigitsAux fuel (n / 10) ++ [digitChar (n % 10)]

/-- Python `str(n)` for a natural number, as a character list. -/
def natDigits (n : Nat) : List Char := natDigitsAux (n + 1) n

/-- incident.py line 38: total characters allowed in a Slack channel name. -/
def channel_name_length_cap : Nat := 80

/-- incident.py line 40: `len("inc-20211116-")`; note the sample date
has no hour/minute component. -/
def channel_name_prefix_length : Nat := ("inc-20211116-".toList).length

/-- incident.py lines 42-44: bound enforced on the description. -/
def incident_description_max_length : Nat :=
  channel_name_length_cap - channel_name_prefix_length

/-- ASCII alphanumeric, the `A-Za-z0-9` part of the regex
`[^A-Za-z0-9\s]` at incident.py line 185. -/
def isAsciiAlnumCh (c : Char) : Bool :=
  (65 ≤ c.toNat && c.toNat ≤ 90) || (97 ≤ c.toNat && c.toNat ≤ 122) ||
    (48 ≤ c.toNat && c.toNat ≤ 57)

/-- The `\s` class of the same regex, restricted to ASCII whitespace. -/
def isPyWhitespaceCh (c : Char) : Bool :=
  c == ' ' || c == '\t' || c == '\n' || c == '\r' ||
    c.toNat == 11 || c.toNat == 12

/-- Python ASCII lowercasing, the fragment of `str.lower` relevant to
alphanumeric channel names. -/
def pyLowerCh (c : Char) : Char :=
  if 65 ≤ c.toNat && c.toNat ≤ 90 then Char.ofNat (c.toNat + 32) else c

/-- incident.py lines 182-192: strip characters outside the regex
class, replace spaces with dashes, lowercase. -/
def formatChannelNameSuffix (desc : List Char) : List Char :=
  ((desc.filter (fun c => isAsciiAlnumCh c || isPyWhitespaceCh c)).map
      (fun c => if c = ' ' then '-' else c)).map pyLowerCh

/-- incident.py lines 182-194: the full channel name
`f"inc-\x7bnow.year\x7d\x7bnow.month\x7d..."`; each datetime component
is rendered by Python `str`, with no zero padding. -/
def formatChannelName (y mo d h mi : Nat) (desc : List Char) : List Char :=
  "inc-".toList ++ natDigits y ++ natDigits mo ++ natDigits d ++
    natDigits h ++ natDigits mi ++ ['-'] ++ formatChannelNameSuffix desc

/-- The character class named by claim C1: alphanumerics and spaces. -/
def alnumOrSpaceCh (c : Char) : Bool := isAsciiAlnumCh c || c == ' '

/-- Left pad a decimal rendering with zeros to a fixed width
(spec-side helper, used only to state the zero-padded reading). -/
def zeroPad (w n : Nat) : List Char :=
  List.replicate (w - (natDigits n).length) '0' ++ natDigits n

/-- Channel name as claim C1 words it: a zero-padded `YYYYMMDDHHmm`
timestamp.  This definition follows the claim text, not the source,
and exists to be compared with `formatChannelName`. -/
def specZeroPaddedChannelName (y mo d h mi : Nat) (desc : List Char) : List Char :=
  "inc-".toList ++ zeroPad 4 y ++ zeroPad 2 mo ++ zeroPad 2 d ++
    zeroPad 2 h ++ zeroPad 2 mi ++ ['-'] ++
    (desc.map (fun c => if c = ' ' then '-' else c)).map pyLowerCh

/-! ### Digit-length lemmas -/

theorem natDigitsAux_length_le (fuel : Nat) :
    ∀ n k : Nat, 0 < k → n < 10 ^ k → (natDigitsAux fuel n).length ≤ k := by
  induction fuel with
  | zero =>
    intro n k hk _
    simp [natDigitsAux]
  | succ fuel ih =>
    intro n k hk hn
    rw [natDigitsAux]
    split
    · simpa using hk
    · rename_i h10
      have hk2 : 2 ≤ k := by
        by_contra hc
        have hk1 : k = 1 := by omega
        subst hk1
        simp at hn
        omega
      have hpow : 10 ^ (k - 1) * 10 = 10 ^ k := by
        rw [← pow_succ]
        congr 1
        omega
      have hdiv : n / 10 < 10 ^ (k - 1) := by
        have hlt : n < 10 ^ (k - 1) * 10 := by omega
        exact (Nat.div_lt_iff_lt_mul (by norm_num)).mpr hlt
      have hrec := ih (n / 10) (k - 1) (by omega) hdiv
      simp only [List.length_append, List.length_cons, List.length_nil]
      omega

theorem natDigits_length_le (n k : Nat) (hk : 0 < k) (hn : n < 10 ^ k) :
    (natDigits n).length ≤ k :=
  natDigitsAux_length_le (n + 1) n k hk hn

/-! ### Filter is the identity on alphanumeric-and-space descriptions -/

theorem keep_of_alnumOrSpace (c : Char) (h : alnumOrSpaceCh c = true) :
    (isAsciiAlnumCh c || isPyWhitespaceCh c) = true := by
  simp only [alnumOrSpaceCh, Bool.or_eq_true] at h
  rcases h with h | h
  · simp [h]
  · simp [isPyWhitespaceCh, h]

theorem filter_keep_eq_self (l : List Char) (h : l.all alnumOrSpaceCh = true) :
    l.filter (fun c => isAsciiAlnumCh c || isPyWhitespaceCh c) = l := by
  induction l with
  | nil => rfl
  | cons c cs ih =>
    rw [List.all_cons, Bool.and_eq_true] at h
    rw [List.filter_cons]
    simp [keep_of_alnumOrSpace c h.1, ih h.2]

/-- A description used as a concrete counterexample: 66 letters, which
is below the configured description bound of 67. -/
def descSixtySix : List Char := List.replicate 66 'a'

/-- C1: the claim states the channel name embeds a zero-padded
`YYYYMMDDHHmm` timestamp and never exceeds 80 characters.  At
2023-04-24 10:05 with a 66-letter description (within the configured
bound and purely alphanumeric), the code emits the unpadded
`inc-2023424105-` form, and the resulting name is 81 characters. -/
theorem channel_name_zero_padding_counterexample :
    descSixtySix.length < incident_description_max_length ∧
    descSixtySix.all alnumOrSpaceCh = true ∧
    formatChannelName 2023 4 24 10 5 descSixtySix ≠
      specZeroPaddedChannelName 2023 4 24 10 5 descSixtySix ∧
    channel_name_length_cap <
      (formatChannelName 2023 4 24 10 5 descSixtySix).length := by
  decide

/-- C1 (amended): for a description shorter than the configured
67-character bound containing only alphanumerics and spaces, the
channel name is `inc-` followed by the unpadded decimal concatenation
of year, month, day, hour, minute, a dash, and the lowercased
dash-joined description; for calendar-valid times its length is at
most 83 characters. -/
theorem channel_name_formatting_amended (y mo d h mi : Nat) (desc : List Char)
    (hlen : desc.length < incident_description_max_length)
    (hchars : desc.all alnumOrSpaceCh = true)
    (hy : y ≤ 9999) (hmo : mo ≤ 12) (hd : d ≤ 31) (hh : h ≤ 23) (hmi : mi ≤ 59) :
    formatChannelName y mo d h mi desc =
      "inc-".toList ++ natDigits y ++ natDigits mo ++ natDigits d ++
        natDigits h ++ natDigits mi ++ ['-'] ++
        (desc.map (fun c => if c = ' ' then '-' else c)).map pyLowerCh ∧
    (formatChannelName y mo d h mi desc).length ≤ 83 := by
  have hfix : formatChannelNameSuffix desc =
      (desc.map (fun c => if c = ' ' then '-' else c)).map pyLowerCh := by
    unfold formatChannelNameSuffix
    rw [filter_keep_eq_self desc hchars]
  constructor
  · unfold formatChannelName
    rw [hfix]
  · have h67 : incident_description_max_length = 67 := by decide
    have hy4 : (natDigits y).length ≤ 4 := by
      refine natDigits_length_le y 4 (by norm_num) ?_
      norm_num
      omega
    have hmo2 : (natDigits mo).length ≤ 2 := by
      refine natDigits_length_le mo 2 (by norm_num) ?_
      norm_num
      omega
    have hd2 : (natDigits d).length ≤ 2 := by
      refine natDigits_length_le d 2 (by norm_num) ?_
      norm_num
      omega
    have hh2 : (natDigits h).length ≤ 2 := by
      refine natDigits_length_le h 2 (by norm_num) ?_
      norm_num
      omega
    have hmi2 : (natDigits mi).length ≤ 2 := by
      refine natDigits_length_le mi 2 (by norm_num) ?_
      norm_num
      omega
    have hinc : ("inc-".toList).length = 4 := by decide
    unfold formatChannelName
    rw [hfix]
    simp only [List.length_append, List.length_map, List.length_cons,
      List.length_nil, hinc]
    omega

/-- C1 witness: the amended statement applied at 2023-04-24 10:05 to
the description `db outage`. -/
theorem channel_name_formatting_amended_witness :
    formatChannelName 2023 4 24 10 5 ("db outage".toList) =
      "inc-".toList ++ natDigits 2023 ++ natDigits 4 ++ natDigits 24 ++
        natDigits 10 ++ natDigits 5 ++ ['-'] ++
        (("db outage".toList).map (fun c => if c = ' ' then '-' else c)).map pyLowerCh ∧
    (formatChannelName 2023 4 24 10 5 ("db outage".toList)).length ≤ 83 :=
  channel_name_formatting_amended 2023 4 24 10 5 ("db outage".toList)
    (by decide) (by decide) (by decide) (by decide) (by decide) (by decide)
    (by decide)

/-! ## The `inc-` marker relied on by the reaction handler
(handler.py line 334: `if "inc-" in channel_info["channel"]["name"]`). -/

/-- Does the list start with the four characters `inc-`? -/
def startsWithIncMarker : List Char → Bool
  | c1 :: c2 :: c3 :: c4 :: _ =>
    (c1 == 'i') && (c2 == 'n') && (c3 == 'c') && (c4 == '-')
  | _ => false

/-- Python `"inc-" in name`, the pinned-content guard of
handler.py line 334. -/
def nameHasIncMarker : List Char → Bool
  | [] => false
  | c :: rest => startsWithIncMarker (c :: rest) || nameHasIncMarker rest

/-- C9: every name produced by `__format_channel_name` begins with the
literal `inc-`, so the pinned-content handler test
`"inc-" in name` accepts every incident channel name. -/
theorem channel_name_always_starts_with_inc (y mo d h mi : Nat) (desc : List Char) :
    (formatChannelName y mo d h mi desc).take 4 = "inc-".toList ∧
    nameHasIncMarker (formatChannelName y mo d h mi desc) = true := by
  have hshape : formatChannelName y mo d h mi desc =
      'i' :: 'n' :: 'c' :: '-' ::
        (natDigits y ++ natDigits mo ++ natDigits d ++ natDigits h ++
          natDigits mi ++ ['-'] ++ formatChannelNameSuffix desc) := by
    unfold formatChannelName
    simp [List.append_assoc]
  rw [hshape]
  constructor
  · rfl
  · rfl

/-! ## Request parameters (incident.py, `RequestParameters`) -/

/-- incident.py lines 50-60: the dataclass carrying an incident
request.  Python strings are `List Char`; the boolean flags are typed
booleans exactly as in the dataclass. -/
structure RequestParameters where
  channel : List Char
  incident_description : List Char
  severity : List Char
  user : List Char
  created_from_web : Bool
  is_security_incident : Bool
  private_channel : Bool
  message_reacted_to_content : List Char
  original_message_timestamp : List Char
deriving DecidableEq, Repr

/-! ## The effect trace of one incident-creation flow -/

/-- One Slack user group, as listed by the workspace group directory
(`all_workspace_groups` with `usergroups_users_list`). -/
structure SlackGroup where
  handle : List Char
  members : List (List Char)
deriving DecidableEq, Repr

/-- Observable side effects of `create_incident` and
`handle_incident_optional_features`: each field counts or records one
kind of external call made by incident.py. -/
structure Effects where
  channelsCreated : List (List Char)
  digestPosts : Nat
  topicSets : Nat
  bpPosts : Nat
  bpPins : Nat
  confPosts : Nat
  confPins : Nat
  dbIncidentWrites : Nat
  dbCreatedAtUpdates : Nat
  groupInvites : List (List (List Char))
  groupAuditLogs : List (List Char)
  spPrompts : Nat
  spPins : Nat
  spDbUpdates : Nat
  linkbackPosts : Nat
  confirmPosts : Nat
  pagerAuditLogs : List (List Char)
  pages : List (List Char)
  userInvites : Nat
  creationAuditLogs : Nat
deriving DecidableEq, Repr

/-- The trace before any call has been made. -/
def noEffects : Effects :=
  { channelsCreated := [], digestPosts := 0, topicSets := 0, bpPosts := 0,
    bpPins := 0, confPosts := 0, confPins := 0, dbIncidentWrites := 0,
    dbCreatedAtUpdates := 0, groupInvites := [], groupAuditLogs := [],
    spPrompts := 0, spPins := 0, spDbUpdates := 0, linkbackPosts := 0,
    confirmPosts := 0, pagerAuditLogs := [], pages := [], userInvites := 0,
    creationAuditLogs := 0 }

/-- Python exceptions that can escape the flow uncaught. -/
inductive PyError
  | unboundLocalError
  | nameError
  | slackApiError
deriving DecidableEq, Repr

/-- Environment of one run: the configuration read from
`config.active`, the clock, and the outcome of each collaborator
call (`true` = the call returns, `false` = it raises). -/
structure World where
  year : Nat
  month : Nat
  day : Nat
  hour : Nat
  minute : Nat
  createChannelOk : Bool
  channelId : List Char
  digestOk : Bool
  topicOk : Bool
  bpPostOk : Bool
  bpPinOk : Bool
  confPostOk : Bool
  confPinOk : Bool
  dbWriteOk : Bool
  dbCreatedAtOk : Bool
  autoInviteEnabled : Bool
  autoInviteGroups : List (List Char)
  workspaceGroups : List SlackGroup
  inviteOk : Bool
  statuspageEnabled : Bool
  spPostOk : Bool
  spPinOk : Bool
  spDbOk : Bool
  createFromReactionEnabled : Bool
  linkbackPostOk : Bool
  confirmPostOk : Bool
  pagerdutyEnabled : Bool
  autoPageTargets : List (List Char × List Char)

/-- A run in which the configuration enables nothing optional and
every collaborator call succeeds. -/
def worldAllOk : World :=
  { year := 2023, month := 4, day := 24, hour := 10, minute := 5,
    createChannelOk := true, channelId := "C123".toList, digestOk := true,
    topicOk := true, bpPostOk := true, bpPinOk := true, confPostOk := true,
    confPinOk := true, dbWriteOk := true, dbCreatedAtOk := true,
    autoInviteEnabled := false, autoInviteGroups := [], workspaceGroups := [],
    inviteOk := true, statuspageEnabled := false, spPostOk := true,
    spPinOk := true, spDbOk := true, createFromReactionEnabled := false,
    linkbackPostOk := true, confirmPostOk := true, pagerdutyEnabled := false,
    autoPageTargets := [] }

/-! ## Channel creation (incident.py, `Incident.__create_incident_channel`) -/

/-- incident.py lines 163-180.  The `conversations_create` result is
assigned to the local variable `channel` inside a try block whose
except clause only logs; the trailing `return channel` then reads a
variable that was never assigned when the call raised, which in
Python raises `UnboundLocalError`.  The local binding is modelled by
the `Option`, the uncaught error by the `Except`. -/
def createIncidentChannel (callResult : Except Unit (List Char)) :
    Except PyError (List Char) :=
  let channelVar : Option (List Char) :=
    match callResult with
    | .ok ch => some ch
    | .error _ => none
  match channelVar with
  | some ch => .ok ch
  | none => .error PyError.unboundLocalError

/-- incident.py lines 136-142: the dict built from the platform
response and the request flags. -/
structure CreatedChannelDetails where
  incident_description : List Char
  id : List Char
  name : List Char
  is_security_incident : Bool
  private_channel : Bool
deriving DecidableEq, Repr

/-! ## Optional features (incident.py, `handle_incident_optional_features`) -/

/-- incident.py lines 408-415: locate the configured group handle in
the workspace directory and fetch its member list; `none` models the
`IndexError` (handle absent) or API failure caught at line 416. -/
def resolveGroupMembers (groups : List SlackGroup) (gr : List Char) :
    Option (List (List Char)) :=
  (groups.find? (fun g => g.handle == gr)).map SlackGroup.members

/-- incident.py lines 397-432, the auto-invite loop.  The second
argument models the Python local `required_participants_group_members`:
when the first try block fails its except clause only logs, so the
variable keeps its previous value (`none` if never assigned).  The
second try block then reads it; on `none` that is a `NameError`,
which the `except slack_sdk.errors.SlackApiError` clause does not
catch, so it escapes the loop. -/
def autoInviteLoop (w : World) :
    List (List Char) → Option (List (List Char)) → Effects →
      Except PyError Effects
  | [], _, eff => .ok eff
  | gr :: rest, memberVar, eff =>
    if w.workspaceGroups.length = 0 then
      autoInviteLoop w rest memberVar eff
    else
      let newVar : Option (List (List Char)) :=
        match resolveGroupMembers w.workspaceGroups gr with
        | some ms => some ms
        | none => memberVar
      match newVar with
      | none => .error PyError.nameError
      | some ms =>
        if w.inviteOk then
          autoInviteLoop w rest (some ms)
            { eff with groupInvites := eff.groupInvites ++ [ms],
                       groupAuditLogs := eff.groupAuditLogs ++ [gr] }
        else
          autoInviteLoop w rest (some ms) eff

/-- incident.py lines 437-465: Statuspage prompt, pin and record
patch; every failure is caught, including the `NameError` read of an
unassigned message variable, which the `except Exception` at line 464
swallows. -/
def statuspageStep (w : World) (eff : Effects) : Effects :=
  if w.statuspageEnabled then
    if w.spPostOk then
      let e1 := { eff with spPrompts := eff.spPrompts + 1,
                           spPins := eff.spPins + (if w.spPinOk then 1 else 0) }
      if w.spDbOk then { e1 with spDbUpdates := e1.spDbUpdates + 1 } else e1
    else eff
  else eff

/-- incident.py lines 470-525: link back to the reacted-to message
and confirm in the original channel; both posts individually
guarded. -/
def linkbackStep (w : World) (internal : Bool) (eff : Effects) : Effects :=
  if internal && w.createFromReactionEnabled then
    let e1 := if w.linkbackPostOk
      then { eff with linkbackPosts := eff.linkbackPosts + 1 } else eff
    if w.confirmPostOk
      then { e1 with confirmPosts := e1.confirmPosts + 1 } else e1
  else eff

/-- incident.py lines 529-548: one audit-log entry and one page per
configured auto-page target. -/
def pagerStep (w : World) (eff : Effects) : Effects :=
  if w.pagerdutyEnabled then
    w.autoPageTargets.foldl
      (fun e kv =>
        { e with pagerAuditLogs := e.pagerAuditLogs ++ [kv.1],
                 pages := e.pages ++ [kv.1] }) eff
  else eff

/-- incident.py lines 383-548: the optional-feature runner.  An
uncaught error in the auto-invite loop propagates out of the
coroutine (and through `asyncio.run` in the caller). -/
def handleIncidentOptionalFeatures (w : World) (internal : Bool)
    (eff : Effects) : Except PyError Effects :=
  match (if w.autoInviteEnabled
         then autoInviteLoop w w.autoInviteGroups none eff
         else .ok eff) with
  | .error e => .error e
  | .ok e1 => .ok (pagerStep w (linkbackStep w internal (statuspageStep w e1)))

/-! ## `create_incident` (incident.py lines 213-380) -/

/-- The three return values of `create_incident`, one constructor per
returned string template. -/
inductive CreateIncidentResult
  | rejectEmptyDescription
  | rejectDescriptionTooLong (used : Nat)
  | createdChannel (channelId : List Char)
deriving DecidableEq, Repr

/-- incident.py lines 213-380.  The two precondition checks return
before any collaborator call.  The digest, topic, boilerplate and
conference steps are individually guarded; the boilerplate pin at
lines 288-291 is not guarded at all, and reads `bp_message` which is
unassigned when the boilerplate post failed.  The db write at lines
334-349 evaluates `digest_message["ts"]` inside its try block, which
raises `TypeError` when the digest post failed (the variable is still
`None`), so `db_write_incident` is never called in that case; the
`except Exception` then only logs. -/
def create_incident (w : World) (req : RequestParameters) (internal : Bool) :
    Except PyError (CreateIncidentResult × Effects) :=
  if req.incident_description = [] then
    .ok (.rejectEmptyDescription, noEffects)
  else if incident_description_max_length ≤ req.incident_description.length then
    .ok (.rejectDescriptionTooLong req.incident_description.length, noEffects)
  else
    let channelName :=
      formatChannelName w.year w.month w.day w.hour w.minute
        req.incident_description
    match createIncidentChannel
        (if w.createChannelOk then .ok channelName else .error ()) with
    | .error e => .error e
    | .ok chName =>
      let e0 : Effects := { noEffects with channelsCreated := [chName] }
      let digestTs : Option Unit := if w.digestOk then some () else none
      let e1 := if w.digestOk then { e0 with digestPosts := 1 } else e0
      let e2 := if w.topicOk then { e1 with topicSets := e1.topicSets + 1 } else e1
      let bpTs : Option Unit := if w.bpPostOk then some () else none
      let e3 := if w.bpPostOk then { e2 with bpPosts := e2.bpPosts + 1 } else e2
      match bpTs with
      | none => .error PyError.nameError
      | some _ =>
        if !w.bpPinOk then .error PyError.slackApiError
        else
          let e4 := { e3 with bpPins := e3.bpPins + 1 }
          let e5 :=
            if w.confPostOk then
              let ec := { e4 with confPosts := e4.confPosts + 1 }
              if w.confPinOk then { ec with confPins := ec.confPins + 1 } else ec
            else e4
          let e6 :=
            match digestTs with
            | none => e5
            | some _ =>
              if w.dbWriteOk
              then { e5 with dbIncidentWrites := e5.dbIncidentWrites + 1 }
              else e5
          let e7 := if w.dbCreatedAtOk
            then { e6 with dbCreatedAtUpdates := e6.dbCreatedAtUpdates + 1 }
            else e6
          match handleIncidentOptionalFeatures w internal e7 with
          | .error e => .error e
          | .ok e8 =>
            .ok (.createdChannel w.channelId,
              { e8 with userInvites := e8.userInvites + 1,
                        creationAuditLogs := e8.creationAuditLogs + 1 })

/-- Project the effect trace out of a finished run. -/
def runEffects (x : Except PyError (CreateIncidentResult × Effects)) :
    Option Effects :=
  (x.toOption).map Prod.snd

/-- C2: a request with an empty description, or one at or above the
configured 67-character maximum, is rejected with a user-facing
string and the effect trace stays empty: no channel, no posts, no
database write, no audit-log entry. -/
theorem create_incident_rejects_without_side_effects (w : World)
    (req : RequestParameters) (internal : Bool)
    (h : req.incident_description = [] ∨
      incident_description_max_length ≤ req.incident_description.length) :
    ∃ r, create_incident w req internal = .ok (r, noEffects) ∧
      (r = CreateIncidentResult.rejectEmptyDescription ∨
       r = CreateIncidentResult.rejectDescriptionTooLong
             req.incident_description.length) := by
  by_cases hemp : req.incident_description = []
  · refine ⟨CreateIncidentResult.rejectEmptyDescription, ?_, Or.inl rfl⟩
    simp [create_incident, hemp]
  · have hlong : incident_description_max_length ≤
        req.incident_description.length := by
      rcases h with h | h
      · exact absurd h hemp
      · exact h
    refine ⟨CreateIncidentResult.rejectDescriptionTooLong
      req.incident_description.length, ?_, Or.inr rfl⟩
    simp [create_incident, hemp, hlong]

/-- A valid request used by several concrete runs. -/
def reqOutage : RequestParameters :=
  { channel := "C1".toList, incident_description := "db outage".toList,
    severity := "sev2".toList, user := "U1".toList, created_from_web := false,
    is_security_incident := false, private_channel := false,
    message_reacted_to_content := [], original_message_timestamp := [] }

/-- A request whose description is 70 characters, at or above the
configured maximum of 67. -/
def reqTooLong : RequestParameters :=
  { reqOutage with incident_description := List.replicate 70 'a' }

/-- C2 witness: the rejection applied to the 70-character request. -/
theorem create_incident_rejects_without_side_effects_witness :
    incident_description_max_length ≤
      reqTooLong.incident_description.length ∧
    ∃ r, create_incident worldAllOk reqTooLong false = .ok (r, noEffects) ∧
      (r = CreateIncidentResult.rejectEmptyDescription ∨
       r = CreateIncidentResult.rejectDescriptionTooLong
             reqTooLong.incident_description.length) :=
  ⟨by decide,
   create_incident_rejects_without_side_effects worldAllOk reqTooLong false
     (Or.inr (by decide))⟩

/-- A run in which only the digest-notification post fails. -/
def digestFailWorld : World := { worldAllOk with digestOk := false }

/-- C3: with only the digest post failing, the flow does not abort and
the boilerplate message is still posted and pinned, but the incident
record is never written: evaluating `digest_message["ts"]` (still
`None`) raises inside the db-write try block before
`db_write_incident` is called, so the digest failure does prevent the
database write, contrary to the claim. -/
theorem digest_failure_blocks_db_write :
    (runEffects (create_incident digestFailWorld reqOutage false)).map
        Effects.bpPosts = some 1 ∧
    (runEffects (create_incident digestFailWorld reqOutage false)).map
        Effects.bpPins = some 1 ∧
    (runEffects (create_incident digestFailWorld reqOutage false)).map
        Effects.digestPosts = some 0 ∧
    (runEffects (create_incident digestFailWorld reqOutage false)).map
        Effects.dbIncidentWrites = some 0 ∧
    (runEffects (create_incident worldAllOk reqOutage false)).map
        Effects.dbIncidentWrites = some 1 := by
  decide

/-- C4: the claim states that after a platform error the method
continues and returns a partial result; in fact the run ends with the
uncaught read of the unassigned `channel` variable. -/
theorem create_channel_error_counterexample :
    createIncidentChannel (.error ()) = .error PyError.unboundLocalError := by
  rfl

/-- C4 (amended): when the channel-creation call raises a platform
error, the error is logged and the method then aborts with
`UnboundLocalError` at `return channel`: no partial result is
returned.  When the call succeeds its response is returned
unchanged. -/
theorem create_channel_error_raises_unbound_local
    (callResult : Except Unit (List Char)) :
    createIncidentChannel callResult =
      match callResult with
      | .ok ch => .ok ch
      | .error _ => .error PyError.unboundLocalError := by
  cases callResult <;> rfl

/-! ## Auto-invite failure isolation (claim C6) -/

/-- A run with two configured auto-invite groups where the workspace
directory is non-empty but does not contain the first handle. -/
def unresolvableFirstGroupWorld : World :=
  { worldAllOk with
    autoInviteEnabled := true,
    autoInviteGroups := ["g1".toList, "g2".toList],
    workspaceGroups := [{ handle := "g2".toList,
                          members := ["U2".toList, "U3".toList] }] }

/-- C6: when the first configured group cannot be resolved, the
resolution error is logged but the loop then reads the never-assigned
member-list variable; the resulting `NameError` is not caught by the
`except slack_sdk.errors.SlackApiError` clause, so the whole
optional-feature runner (and with it `create_incident`, via
`asyncio.run`) aborts: the second group is never invited and no later
optional step runs, contrary to the claim. -/
theorem unresolved_group_aborts_runner :
    autoInviteLoop unresolvableFirstGroupWorld
        ["g1".toList, "g2".toList] none noEffects =
      .error PyError.nameError ∧
    handleIncidentOptionalFeatures unresolvableFirstGroupWorld false
        noEffects = .error PyError.nameError ∧
    create_incident unresolvableFirstGroupWorld reqOutage false =
      .error PyError.nameError := by
  refine ⟨rfl, rfl, ?_⟩
  rfl

/-! ## Request validation (incident.py, `RequestParameters.validate`) -/

/-- One schema violation reported by the validator for the schema of
incident.py lines 67-113.  The boolean flags of the dataclass are
typed booleans and always present, so no violation can arise from
them; the optional string fields have no constraining rule. -/
inductive FieldViolation
  | channelEmpty
  | descriptionEmpty
  | severityEmpty
  | severityNotAllowed
deriving DecidableEq, Repr

/-- The error raised at incident.py line 116, carrying the full error
map `v.errors` of the validator. -/
structure ConfigurationError where
  violations : List FieldViolation
deriving DecidableEq, Repr

/-- All schema violations of one request, as collected by the
validator (cerberus evaluates every rule and accumulates every
violation rather than stopping at the first). -/
def validateErrors (severities : List (List Char)) (r : RequestParameters) :
    List FieldViolation :=
  (if r.channel = [] then [FieldViolation.channelEmpty] else []) ++
  (if r.incident_description = [] then [FieldViolation.descriptionEmpty] else []) ++
  (if r.severity = [] then [FieldViolation.severityEmpty] else []) ++
  (if r.severity ∈ severities then [] else [FieldViolation.severityNotAllowed])

/-- incident.py lines 62-118: raise `ConfigurationError` with the
collected error map when validation fails, return nothing
otherwise. -/
def validate (severities : List (List Char)) (r : RequestParameters) :
    Except ConfigurationError Unit :=
  match validateErrors severities r with
  | [] => .ok ()
  | errs => .error { violations := errs }

/-- The violations carried by the raised error, `[]` when nothing was
raised. -/
def raisedViolations (x : Except ConfigurationError Unit) :
    List FieldViolation :=
  match x with
  | .ok _ => []
  | .error e => e.violations

theorem raisedViolations_validate (severities : List (List Char))
    (r : RequestParameters) :
    raisedViolations (validate severities r) = validateErrors severities r := by
  unfold validate
  cases h : validateErrors severities r with
  | nil => simp [raisedViolations]
  | cons v vs => simp [raisedViolations]

theorem validate_ok_iff (severities : List (List Char))
    (r : RequestParameters) :
    validate severities r = .ok () ↔ validateErrors severities r = [] := by
  unfold validate
  cases h : validateErrors severities r with
  | nil => simp
  | cons v vs => simp

/-- C5: validation raises nothing exactly when channel, description
and severity are non-empty and the severity is in the configured
allow-list; otherwise it raises a `ConfigurationError` (by type, not
a generic exception) whose payload contains one entry per violated
field simultaneously, not only the first. -/
theorem validate_reports_all_violations (severities : List (List Char))
    (r : RequestParameters) :
    (validate severities r = .ok () ↔
      r.channel ≠ [] ∧ r.incident_description ≠ [] ∧ r.severity ≠ [] ∧
        r.severity ∈ severities) ∧
    (FieldViolation.channelEmpty ∈ raisedViolations (validate severities r) ↔
      r.channel = []) ∧
    (FieldViolation.descriptionEmpty ∈ raisedViolations (validate severities r) ↔
      r.incident_description = []) ∧
    (FieldViolation.severityEmpty ∈ raisedViolations (validate severities r) ↔
      r.severity = []) ∧
    (FieldViolation.severityNotAllowed ∈ raisedViolations (validate severities r) ↔
      r.severity ∉ severities) := by
  rw [validate_ok_iff, raisedViolations_validate]
  unfold validateErrors
  by_cases h1 : r.channel = [] <;>
    by_cases h2 : r.incident_description = [] <;>
      by_cases h3 : r.severity = [] <;>
        by_cases h4 : r.severity ∈ severities <;>
          simp [h1, h2, h3, h4]

/-! ## Reacji incident creation (handler.py, `make_reacji_incident`) -/

/-- The `create_from_reaction` configuration block. -/
structure ReacjiConfig where
  enabled : Bool
  reacji : List Char
deriving DecidableEq, Repr

/-- Outcome of one `make_reacji_incident` call: the boolean the
function returns to `reaction_added`, and whether `create_incident`
was invoked. -/
structure ReacjiOutcome where
  handled : Bool
  incidentAttempted : Bool
deriving DecidableEq, Repr

/-- handler.py lines 196-234.  The guard at lines 200-203 is
`if (options["enabled"] or reaction != reacji): return False`, so the
function only proceeds to create an incident when the feature is
disabled and the emoji matches.  `fetchOk` models the
`conversations_history` call, `paramsOk` the `RequestParameters`
construction; either failure returns `True` without creating. -/
def makeReacjiIncident (cfg : ReacjiConfig) (reaction : List Char)
    (fetchOk paramsOk : Bool) : ReacjiOutcome :=
  if cfg.enabled || !(reaction == cfg.reacji) then
    { handled := false, incidentAttempted := false }
  else if !fetchOk then
    { handled := true, incidentAttempted := false }
  else if !paramsOk then
    { handled := true, incidentAttempted := false }
  else
    { handled := true, incidentAttempted := true }

/-- C7: the claim (and the guard comment at handler.py line 202)
wants an incident exactly when the feature is enabled and the emoji
matches the configured reacji.  The guard is inverted: with the
feature enabled and the matching emoji no incident is attempted, and
with the feature disabled and the matching emoji one is. -/
theorem reacji_guard_inverted :
    (makeReacjiIncident { enabled := true, reacji := "fire".toList }
        ("fire".toList) true true).incidentAttempted = false ∧
    (makeReacjiIncident { enabled := true, reacji := "fire".toList }
        ("fire".toList) true true).handled = false ∧
    (makeReacjiIncident { enabled := false, reacji := "fire".toList }
        ("fire".toList) true true).incidentAttempted = true := by
  decide

/-! ## GitHub issue creation (github/issue.py) -/

/-- One fragment of a parsed Python format template: literal text or
a named placeholder. -/
inductive TemplateSeg
  | lit : List Char → TemplateSeg
  | placeholder : List Char → TemplateSeg
deriving DecidableEq, Repr

/-- Python `str.format` with keyword arguments: substitute each
placeholder from the environment, raising `KeyError` (the offending
name) on the first unknown placeholder. -/
def pyFormat (env : List (List Char × List Char)) :
    List TemplateSeg → Except (List Char) (List Char)
  | [] => .ok []
  | TemplateSeg.lit s :: rest => (pyFormat env rest).map (fun t => s ++ t)
  | TemplateSeg.placeholder k :: rest =>
    match env.find? (fun p => p.1 == k) with
    | none => .error k
    | some p => (pyFormat env rest).map (fun t => p.2 ++ t)

/-- Did the format call raise? -/
def formatFailed (x : Except (List Char) (List Char)) : Bool :=
  match x with
  | .error _ => true
  | .ok _ => false

/-- The persisted incident record as read by github/issue.py: the
subset of columns the class dereferences.  `rca` is the stored
external-tracker link, empty when absent. -/
structure IncidentRecord where
  incident_id : List Char
  channel_id : List Char
  channel_name : List Char
  channel_description : List Char
  rca : List Char
deriving DecidableEq, Repr

/-- Modelled from the spec: `GithubApi.get_issue_by_link`, called at
issue.py line 45, is not among the source files (github/api.py
defines only `api`, `repo` and `test`); per the spec, the incident
record carries an optional external-tracker reference (an issue
link), so the call is modelled as resolving that stored link to the
referenced issue. -/
def getIssueByLink (link : List Char) : List Char := link

/-- issue.py lines 38-47: `self.issue` is set from the stored rca
link when it is non-empty, else `None`. -/
def githubIssueInit (inc : IncidentRecord) : Option (List Char) :=
  if inc.rca = [] then none else some (getIssueByLink inc.rca)

/-- The keyword arguments passed to the title template at issue.py
lines 67-69: `date` and `incident_title`. -/
def titleEnv (inc : IncidentRecord) (dateV : List Char) :
    List (List Char × List Char) :=
  [("date".toList, dateV), ("incident_title".toList, inc.channel_description)]

/-- The non-record keyword arguments of the body template at issue.py
lines 75-86, each already rendered to a string. -/
structure NewArgs where
  description : List Char
  incident_start : List Char
  incident_detection : List Char
  regions : List Char
  ingest_impacted : List Char
  notifications_impacted : List Char
  owner : List Char
  detection_source : List Char
deriving DecidableEq, Repr

/-- The keyword arguments passed to the body template at issue.py
lines 75-86. -/
def bodyEnv (inc : IncidentRecord) (a : NewArgs) :
    List (List Char × List Char) :=
  [("description".toList, a.description),
   ("incident_start".toList, a.incident_start),
   ("incident_detection".toList, a.incident_detection),
   ("regions".toList, a.regions),
   ("ingest_impacted".toList, a.ingest_impacted),
   ("notifications_impacted".toList, a.notifications_impacted),
   ("owner".toList, a.owner),
   ("slack_channel_name".toList, inc.channel_name),
   ("slack_channel_id".toList, inc.channel_id),
   ("detection_source".toList, a.detection_source)]

/-- The `RuntimeError`s raised by `GithubIssue.new`, one constructor
per raise site (issue.py lines 70-73, 87-90, 94-95). -/
inductive GithubNewError
  | titleFormatError (key : List Char)
  | bodyFormatError (key : List Char)
  | createIssueError
deriving DecidableEq, Repr

/-- Side effects of one `GithubIssue.new` call. -/
structure GithubEffects where
  issuesCreated : Nat
  rcaDbUpdates : Nat
deriving DecidableEq, Repr

/-- No GitHub call and no database patch were made. -/
def noGithubEffects : GithubEffects := { issuesCreated := 0, rcaDbUpdates := 0 }

/-- issue.py lines 49-102, `GithubIssue.new`.  If `self.issue` is
already set the method logs and returns `None`.  Otherwise the title
and body templates are rendered; a `KeyError` from either is
re-raised as `RuntimeError` before `create_issue` runs.  Only when
both render does `create_issue` run, followed by the guarded rca
column patch. -/
def githubIssueNew (inc : IncidentRecord)
    (titleTemplate bodyTemplate : List TemplateSeg) (dateV : List Char)
    (args : NewArgs) (createOk dbOk : Bool) :
    Except GithubNewError (Option (List Char)) × GithubEffects :=
  match githubIssueInit inc with
  | some _ => (.ok none, noGithubEffects)
  | none =>
    match pyFormat (titleEnv inc dateV) titleTemplate with
    | .error k => (.error (GithubNewError.titleFormatError k), noGithubEffects)
    | .ok _ =>
      match pyFormat (bodyEnv inc args) bodyTemplate with
      | .error k => (.error (GithubNewError.bodyFormatError k), noGithubEffects)
      | .ok _ =>
        if createOk then
          (.ok (some ("new-issue".toList)),
            { issuesCreated := 1, rcaDbUpdates := if dbOk then 1 else 0 })
        else (.error GithubNewError.createIssueError, noGithubEffects)

/-- C8: for an incident without a stored issue, an unknown placeholder
in the title or body template makes `GithubIssue.new` raise an
explicit error, and no GitHub issue is created and no record patched
in that case. -/
theorem github_new_unknown_placeholder_fails (inc : IncidentRecord)
    (titleTemplate bodyTemplate : List TemplateSeg) (dateV : List Char)
    (args : NewArgs) (createOk dbOk : Bool)
    (hrca : inc.rca = [])
    (h : formatFailed (pyFormat (titleEnv inc dateV) titleTemplate) = true ∨
      formatFailed (pyFormat (bodyEnv inc args) bodyTemplate) = true) :
    (∃ k,
      (githubIssueNew inc titleTemplate bodyTemplate dateV args createOk dbOk).1 =
          .error (GithubNewError.titleFormatError k) ∨
      (githubIssueNew inc titleTemplate bodyTemplate dateV args createOk dbOk).1 =
          .error (GithubNewError.bodyFormatError k)) ∧
    (githubIssueNew inc titleTemplate bodyTemplate dateV args createOk dbOk).2 =
      noGithubEffects := by
  unfold githubIssueNew
  rw [githubIssueInit, if_pos hrca]
  cases ht : pyFormat (titleEnv inc dateV) titleTemplate with
  | error k => exact ⟨⟨k, Or.inl rfl⟩, rfl⟩
  | ok t =>
    cases hb : pyFormat (bodyEnv inc args) bodyTemplate with
    | error k => exact ⟨⟨k, Or.inr rfl⟩, rfl⟩
    | ok b =>
      exfalso
      rcases h with h | h
      · rw [ht] at h
        simp [formatFailed] at h
      · rw [hb] at h
        simp [formatFailed] at h

/-- An incident record with no stored external-tracker link. -/
def incNoRca : IncidentRecord :=
  { incident_id := "inc-2023424105-db-outage".toList,
    channel_id := "C123".toList,
    channel_name := "inc-2023424105-db-outage".toList,
    channel_description := "db outage".toList, rca := [] }

/-- Rendered keyword arguments used by the concrete GitHub runs. -/
def argsOutage : NewArgs :=
  { description := "db outage".toList, incident_start := "2023-04-24 10:05".toList,
    incident_detection := "2023-04-24 10:00".toList, regions := "us".toList,
    ingest_impacted := "True".toList, notifications_impacted := "False".toList,
    owner := "U1".toList, detection_source := "manual".toList }

/-- C8 witness: a title template with the unknown placeholder
`oops`. -/
theorem github_new_unknown_placeholder_fails_witness :
    formatFailed (pyFormat (titleEnv incNoRca ("2023-04-24".toList))
        [TemplateSeg.placeholder ("oops".toList)]) = true ∧
    ((∃ k,
      (githubIssueNew incNoRca [TemplateSeg.placeholder ("oops".toList)] []
          ("2023-04-24".toList) argsOutage true true).1 =
            .error (GithubNewError.titleFormatError k) ∨
      (githubIssueNew incNoRca [TemplateSeg.placeholder ("oops".toList)] []
          ("2023-04-24".toList) argsOutage true true).1 =
            .error (GithubNewError.bodyFormatError k)) ∧
     (githubIssueNew incNoRca [TemplateSeg.placeholder ("oops".toList)] []
          ("2023-04-24".toList) argsOutage true true).2 = noGithubEffects) :=
  ⟨by decide,
   github_new_unknown_placeholder_fails incNoRca
     [TemplateSeg.placeholder ("oops".toList)] [] ("2023-04-24".toList)
     argsOutage true true rfl (Or.inl (by decide))⟩

/-- C10: when the incident record already stores a non-empty rca
link, `self.issue` is set at construction and `new` returns `None`
with no GitHub issue created and no record patched. -/
theorem github_new_skips_when_rca_set (inc : IncidentRecord)
    (titleTemplate bodyTemplate : List TemplateSeg) (dateV : List Char)
    (args : NewArgs) (createOk dbOk : Bool)
    (h : inc.rca ≠ []) :
    githubIssueNew inc titleTemplate bodyTemplate dateV args createOk dbOk =
      (.ok none, noGithubEffects) := by
  unfold githubIssueNew
  rw [githubIssueInit, if_neg h]

/-- An incident record that already stores an rca link. -/
def incWithRca : IncidentRecord :=
  { incNoRca with rca := "https://github.com/o/r/issues/7".toList }

/-- C10 witness: `new` applied to the record with a stored link. -/
theorem github_new_skips_when_rca_set_witness :
    incWithRca.rca ≠ [] ∧
    githubIssueNew incWithRca [] [] ("2023-04-24".toList) argsOutage true true =
      (.ok none, noGithubEffects) :=
  ⟨by decide,
   github_new_skips_when_rca_set incWithRca [] [] ("2023-04-24".toList)
     argsOutage true true (by decide)⟩

end IncidentBot
